import Mathlib

set_option maxRecDepth 10000

/-!
# Verification of the User/Address microservice core

Shallow embedding of the service's cache layer (`utils/cache.py`), the
credential/authentication pipeline (`utils/auth.py`, the auth dependencies in
`main.py`), the repository merge/delete logic (`services/user_repo.py`,
`services/address_repo.py`), and the guarded handlers in `main.py`.

Machine integers are modelled as `Nat` with explicit `% 2^32` where the
source's 32-bit arithmetic (SHA-256 inside `filters_key`) overflows.
Fallible code returns `Except`.
-/

namespace Service

/-! ## SHA-256 (the `hashlib.sha256(...).hexdigest()` call in `filters_key`)

A byte is a `Nat < 256`; a word is a `Nat < 2^32`. All word arithmetic is
taken `% 2^32`. -/

/-- Truncate to 32 bits. -/
def w32 (x : Nat) : Nat := x % 4294967296

/-- Rotate a 32-bit word right by `n` bits (the two shifted parts occupy
disjoint bit ranges, so bitwise-or is addition). -/
def rotr (n x : Nat) : Nat := w32 (x / 2 ^ n + x * 2 ^ (32 - n))

/-- Logical right shift. -/
def shr (n x : Nat) : Nat := x / 2 ^ n

/-- Bitwise complement within 32 bits (for `x < 2^32`). -/
def compl32 (x : Nat) : Nat := 4294967295 - x

/-- The 64 SHA-256 round constants of FIPS 180-4 (fractional parts of the
cube roots of the first 64 primes), written in decimal. -/
def sha256K : List Nat :=
  [1116352408, 1899447441, 3049323471, 3921009573,
   961987163, 1508970993, 2453635748, 2870763221,
   3624381080, 310598401, 607225278, 1426881987,
   1925078388, 2162078206, 2614888103, 3248222580,
   3835390401, 4022224774, 264347078, 604807628,
   770255983, 1249150122, 1555081692, 1996064986,
   2554220882, 2821834349, 2952996808, 3210313671,
   3336571891, 3584528711, 113926993, 338241895,
   666307205, 773529912, 1294757372, 1396182291,
   1695183700, 1986661051, 2177026350, 2456956037,
   2730485921, 2820302411, 3259730800, 3345764771,
   3516065817, 3600352804, 4094571909, 275423344,
   430227734, 506948616, 659060556, 883997877,
   958139571, 1322822218, 1537002063, 1747873779,
   1955562222, 2024104815, 2227730452, 2361852424,
   2428436474, 2756734187, 3204031479, 3329325298]

/-- The SHA-256 initial hash value of FIPS 180-4 (fractional parts of the
square roots of the first 8 primes), written in decimal. -/
def sha256H0 : List Nat :=
  [1779033703, 3144134277, 1013904242, 2773480762,
   1359893119, 2600822924, 528734635, 1541459225]

/-- `n`-byte big-endian encoding of `val`. -/
def toBytesBE (n val : Nat) : List Nat :=
  (List.range n).map (fun i => val / 2 ^ (8 * (n - 1 - i)) % 256)

/-- Group bytes into 32-bit big-endian words. -/
def bytesToWords : List Nat → List Nat
  | b0 :: b1 :: b2 :: b3 :: rest => (((b0 * 256 + b1) * 256 + b2) * 256 + b3) :: bytesToWords rest
  | _ => []

/-- SHA-256 padding: append `0x80`, zero bytes up to 56 mod 64, then the
64-bit big-endian bit length. -/
def padMessage (msg : List Nat) : List Nat :=
  msg ++ [0x80] ++ List.replicate ((119 - msg.length % 64) % 64) 0 ++ toBytesBE 8 (msg.length * 8)

/-- Split a (padded) message into 64-byte blocks. -/
def toBlocks (msg : List Nat) : List (List Nat) :=
  (List.range (msg.length / 64)).map (fun i => (msg.drop (64 * i)).take 64)

/-- Extend a 16-word block to the 64-word message schedule. -/
def extendSchedule (ws : List Nat) : List Nat :=
  (List.range 48).foldl
    (fun acc _ =>
      let n := acc.length
      let w15 := acc.getD (n - 15) 0
      let w2 := acc.getD (n - 2) 0
      let s0 := (rotr 7 w15) ^^^ (rotr 18 w15) ^^^ (shr 3 w15)
      let s1 := (rotr 17 w2) ^^^ (rotr 19 w2) ^^^ (shr 10 w2)
      acc ++ [w32 (acc.getD (n - 16) 0 + s0 + acc.getD (n - 7) 0 + s1)])
    ws

/-- One compression round. State is the list `[a, b, c, d, e, f, g, h]`. -/
def sha256Round (st : List Nat) (kw : Nat × Nat) : List Nat :=
  match st with
  | [a, b, c, d, e, f, g, h] =>
    let s1 := (rotr 6 e) ^^^ (rotr 11 e) ^^^ (rotr 25 e)
    let ch := (e &&& f) ^^^ (compl32 e &&& g)
    let temp1 := w32 (h + s1 + ch + kw.1 + kw.2)
    let s0 := (rotr 2 a) ^^^ (rotr 13 a) ^^^ (rotr 22 a)
    let maj := (a &&& b) ^^^ (a &&& c) ^^^ (b &&& c)
    let temp2 := w32 (s0 + maj)
    [w32 (temp1 + temp2), a, b, c, w32 (d + temp1), e, f, g]
  | _ => st

/-- Compress one 64-byte block into the running hash. -/
def sha256Compress (h : List Nat) (block : List Nat) : List Nat :=
  let ws := extendSchedule (bytesToWords block)
  let st := (sha256K.zip ws).foldl sha256Round h
  (h.zip st).map (fun p => w32 (p.1 + p.2))

/-- SHA-256 of a byte sequence, as 32 bytes. -/
def sha256 (msg : List Nat) : List Nat :=
  (((toBlocks (padMessage msg)).foldl sha256Compress sha256H0).map (toBytesBE 4)).flatten

/-- Lower-case hex digit. -/
def hexChar (n : Nat) : Char := if n < 10 then Char.ofNat (48 + n) else Char.ofNat (87 + n)

/-- Lower-case hex rendering of a byte list (the `.hexdigest()` output). -/
def bytesToHex (bs : List Nat) : String :=
  String.mk ((bs.map (fun b => [hexChar (b / 16), hexChar (b % 16)])).flatten)

/-! ## `json.dumps` with `sort_keys=True` and `filters_key` (utils/cache.py 14-16)

The filter maps passed to `filters_key` by the handlers bind string field
names to a string or to `None` (`Optional[str]` query parameters), so a
filter map is a `List (String × Option String)`. `json.dumps(...,
sort_keys=True)` serializes a dict with its keys in sorted order, separators
`", "` and `": "`, and `ensure_ascii` escaping. -/

/-- `json.dumps` escaping of one character (`ensure_ascii=True`; code points
in the Basic Multilingual Plane). -/
def escapeChar (c : Char) : List Char :=
  if c = '"' then ['\\', '"']
  else if c = '\\' then ['\\', '\\']
  else if c = '\n' then ['\\', 'n']
  else if c = '\t' then ['\\', 't']
  else if c = '\r' then ['\\', 'r']
  else if c.toNat = 8 then ['\\', 'b']
  else if c.toNat = 12 then ['\\', 'f']
  else if c.toNat < 32 || 126 < c.toNat then
    '\\' :: 'u' :: [hexChar (c.toNat / 4096 % 16), hexChar (c.toNat / 256 % 16),
                    hexChar (c.toNat / 16 % 16), hexChar (c.toNat % 16)]
  else [c]

/-- A JSON string literal for `s`. -/
def jsonQuote (s : String) : String :=
  "\"" ++ String.mk ((s.data.map escapeChar).flatten) ++ "\""

/-- A JSON rendering of a string-or-null filter value. -/
def jsonPrim : Option String → String
  | none => "null"
  | some s => jsonQuote s

/-- The code points of a string (Python compares strings by code point). -/
def codes (s : String) : List Nat := s.data.map Char.toNat

/-- Lexicographic order on code-point sequences: Python's string `<=`. -/
def lexLeB : List Nat → List Nat → Bool
  | [], _ => true
  | _ :: _, [] => false
  | a :: as, b :: bs => a < b || (a == b && lexLeB as bs)

/-- Key order used by `sort_keys=True` on an association list. -/
def keyLE (a b : String × Option String) : Prop :=
  lexLeB (codes a.1) (codes b.1) = true

instance : DecidableRel keyLE :=
  fun a b => inferInstanceAs (Decidable (lexLeB (codes a.1) (codes b.1) = true))

/-- Serialization of the inner `filters` dict: keys in sorted order,
`", "` / `": "` separators. -/
def dumpFilters (filters : List (String × Option String)) : String :=
  "\x7b" ++ String.intercalate ", "
    ((filters.insertionSort keyLE).map (fun p => jsonQuote p.1 ++ ": " ++ jsonPrim p.2)) ++ "\x7d"

/-- The serialized blob `json.dumps({"filters": filters, "limit": limit,
"offset": offset}, sort_keys=True)`; the top-level keys `filters`, `limit`,
`offset` are already in sorted order. -/
def filtersBlob (filters : List (String × Option String)) (limit offset : Nat) : String :=
  "\x7b\"filters\": " ++ dumpFilters filters ++ ", \"limit\": " ++ toString limit
    ++ ", \"offset\": " ++ toString offset ++ "\x7d"

/-- `filters_key` (utils/cache.py 14-16): sha256 hexdigest of the sorted-key
JSON blob. The blob is ASCII, so its UTF-8 bytes are its code points. -/
def filters_key (filters : List (String × Option String)) (limit offset : Nat) : String :=
  bytesToHex (sha256 ((filtersBlob filters limit offset).data.map Char.toNat))

/-! ## Entity snapshots

`AddressRead`/`AddressBase` live in `models/address.py`, which is not part of
the sources at hand; the fields are modelled from the spec (street, city,
state, postal_code, country, persistent id) as they appear in the embedded
examples of `models/user.py`. -/

/-- Modelled from the spec: an address representation (persistent id plus
street, city, state, postal_code, country), as embedded in the examples of
`models/user.py` (`models/address.py` itself is not among the sources). -/
structure AddressRead where
  id : String
  street : Option String
  city : Option String
  state : Option String
  postal_code : Option String
  country : Option String
deriving DecidableEq, Repr

/-- A user representation (models/user.py `UserRead`): users embed their
addresses. Timestamps are elided (no claim mentions them). -/
structure UserRead where
  id : String
  username : String
  email : String
  phone : Option String
  birth_date : Option String
  addresses : List AddressRead
deriving DecidableEq, Repr

/-! ## Caches and invalidation (utils/cache.py)

A cache is modelled by its dictionary of live entries.  The claims quantify
only over immediately-successive operations, so the TTL bookkeeping of
`cachetools.TTLCache` (entries also vanish once `ttl` elapses) never fires
inside a claim and is not modelled. -/

/-- Dictionary lookup `c[k]` / `k in c`. -/
def assocGet {α : Type} (c : List (String × α)) (k : String) : Option α :=
  (c.find? (fun p => p.1 == k)).map Prod.snd

/-- `c.pop(k, None)`: remove the entry for `k` if any. -/
def assocPop {α : Type} (c : List (String × α)) (k : String) : List (String × α) :=
  c.filter (fun p => p.1 != k)

/-- `c[k] = v`: bind `k` to `v`. -/
def assocPut {α : Type} (c : List (String × α)) (k : String) (v : α) : List (String × α) :=
  (k, v) :: assocPop c k

/-- The four module-level caches of utils/cache.py. -/
structure CacheState where
  user_cache : List (String × UserRead)
  address_cache : List (String × AddressRead)
  user_list_cache : List (String × List UserRead)
  address_list_cache : List (String × List AddressRead)
deriving DecidableEq, Repr

/-- `invalidate_user` (utils/cache.py 18-20): pop the user's single-item slot
and clear the user collection cache. -/
def invalidate_user (s : CacheState) (user_id : String) : CacheState :=
  { s with user_cache := assocPop s.user_cache user_id, user_list_cache := [] }

/-- `invalidate_address` (utils/cache.py 22-24): pop the address's single-item
slot and clear the address collection cache. -/
def invalidate_address (s : CacheState) (address_id : String) : CacheState :=
  { s with address_cache := assocPop s.address_cache address_id, address_list_cache := [] }

/-- An HTTP error raised by a handler (`HTTPException(status_code, detail)`). -/
structure HTTPError where
  status : Nat
  detail : String
deriving DecidableEq, Repr

/-- `get_address` (main.py 299-310): read-through on `address_cache`.  The
persistence read `repo_get_address` is the function `store`; the result
triple is (response, updated address cache, number of loader invocations).
A miss loads; a not-found load raises 404 and caches nothing; a successful
load populates the cache. -/
def get_address (store : String → Option AddressRead)
    (cache : List (String × AddressRead)) (sid : String) :
    Except HTTPError AddressRead × List (String × AddressRead) × Nat :=
  match assocGet cache sid with
  | some out => (.ok out, cache, 0)
  | none =>
    match store sid with
    | none => (.error ⟨404, "Address not found"⟩, cache, 1)
    | some out => (.ok out, assocPut cache sid out, 1)

/-- `update_address` handler (main.py 311-317): the repository update's
outcome is `repoResult`; on not-found raise 404 (no invalidation), on success
run `invalidate_address` before returning. -/
def update_address (repoResult : Option AddressRead) (address_id : String)
    (s : CacheState) : Except HTTPError AddressRead × CacheState :=
  match repoResult with
  | none => (.error ⟨404, "Address not found"⟩, s)
  | some a => (.ok a, invalidate_address s address_id)

/-- `delete_address` handler (main.py 318-324): 404 when the repository
deleted nothing, else invalidate then return 204. -/
def delete_address (repoDeleted : Bool) (address_id : String)
    (s : CacheState) : Except HTTPError Unit × CacheState :=
  if repoDeleted then (.ok (), invalidate_address s address_id)
  else (.error ⟨404, "Address not found"⟩, s)

/-- `create_address` handler (main.py 243-248): after the repository insert,
invalidate the (fresh) id before returning 201. -/
def create_address (created : AddressRead) (s : CacheState) :
    Except HTTPError AddressRead × CacheState :=
  (.ok created, invalidate_address s created.id)

/-! ## Password hashing (utils/auth.py 14-18)

`verify_password` returns `bcrypt_sha256.verify(plain, hashed)` from passlib,
an external library: passlib first identifies the hash string by its
`$bcrypt-sha256$` format tag and raises `ValueError` for a string not in that
format; for a well-formed hash it returns the boolean outcome of the
underlying bcrypt comparison, abstracted here as the parameter `check`. -/

/-- Whether `p` is a leading piece of `s`. -/
def strStartsWith (s p : String) : Bool := p.data.isPrefixOf s.data

/-- Model of passlib `bcrypt_sha256.verify` (external library, see above). -/
def bcrypt_sha256_verify (check : String → String → Bool) (plain hashed : String) :
    Except String Bool :=
  if strStartsWith hashed "$bcrypt-sha256$" then .ok (check plain hashed)
  else .error "ValueError: not a valid bcrypt_sha256 hash"

/-- `verify_password` (utils/auth.py 17-18): delegates to
`bcrypt_sha256.verify` with no exception handling. -/
def verify_password (check : String → String → Bool) (plain hashed : String) :
    Except String Bool :=
  bcrypt_sha256_verify check plain hashed

/-! ## Federated identity (utils/auth.py 50-86, main.py 138-181) -/

/-- The `email_verified` claim arrives as `str | bool`. -/
inductive StrOrBool where
  | str (s : String)
  | bool (b : Bool)
deriving DecidableEq, Repr

/-- The claim set returned by Google's tokeninfo endpoint
(`GoogleTokenInfo`, utils/auth.py 50-59). -/
structure GoogleTokenInfo where
  iss : String
  sub : String
  aud : String
  email : String
  email_verified : StrOrBool
  name : Option String
  picture : Option String
  iat : Nat
  exp : Nat
deriving DecidableEq, Repr

/-- ASCII lower-casing of one character (Python `str.lower` on the ASCII
range used by the boolean words). -/
def lowerChar (c : Char) : Char :=
  if 'A' ≤ c && c ≤ 'Z' then Char.ofNat (c.toNat + 32) else c

/-- ASCII `str.lower`. -/
def strToLower (s : String) : String := String.mk (s.data.map lowerChar)

/-- The truthiness normalization of `email_verified` (utils/auth.py 78-82):
a boolean is taken as is, a string counts as verified iff it lower-cases to
`"true"`. -/
def truthy_email_verified : StrOrBool → Bool
  | .bool b => b
  | .str s => strToLower s == "true"

/-- `verify_google_id_token` (utils/auth.py 61-86).  The HTTPS exchange with
the tokeninfo endpoint is external; its observed outcome (HTTP status and
parsed claim set) are parameters.  Checks, in order: a configured client id,
a 200 response, the audience, and `email_verified`; each violation raises
(returns `.error`). -/
def verify_google_id_token (google_client_id : String) (status : Nat)
    (data : GoogleTokenInfo) : Except String GoogleTokenInfo :=
  if google_client_id = "" then .error "RuntimeError: GOOGLE_CLIENT_ID is not configured"
  else if status ≠ 200 then .error "Invalid Google ID token"
  else if data.aud ≠ google_client_id then .error "Invalid audience for Google ID token"
  else if truthy_email_verified data.email_verified = false then
    .error "Google email not verified"
  else .ok data

/-- Observable outcome of one `google_login` call (main.py 138-181): the
response, and whether a local account was provisioned during the call. -/
structure GoogleLoginOutcome where
  response : Except HTTPError Unit
  account_created : Bool
deriving Repr

/-- `google_login` (main.py 138-181): any `verify_google_id_token` exception
is caught and re-raised as 401 before the user lookup, so no account is
created; on success a local account is provisioned exactly when no user with
the asserted email exists.  (Token issuance details are elided.) -/
def google_login (google_client_id : String) (status : Nat)
    (data : GoogleTokenInfo) (user_with_email_exists : Bool) : GoogleLoginOutcome :=
  match verify_google_id_token google_client_id status data with
  | .error _ => ⟨.error ⟨401, "Invalid Google token"⟩, false⟩
  | .ok _ => ⟨.ok (), !user_with_email_exists⟩

/-! ## Bearer-token authentication (utils/auth.py 47-48, main.py 185-197) -/

/-- The ways `jose.jwt.decode` can raise `JWTError` (external library):
expired token, bad signature, structurally malformed token, bad claims. -/
inductive JWTError where
  | expiredSignature
  | invalidSignature
  | malformed
  | claimsError
deriving DecidableEq, Repr

/-- The claims `get_current_principal` reads from a decoded payload, each
possibly absent (`payload.get`). -/
structure TokenPayload where
  sub : Option String
  username : Option String
  role : Option String
deriving DecidableEq, Repr

/-- Python truthiness of `payload.get(...)` for a string claim: `None` and
the empty string are falsy. -/
def falsy : Option String → Bool
  | none => true
  | some s => s == ""

/-- Hexadecimal digit test. -/
def isHexDigit (c : Char) : Bool :=
  c.isDigit || ('a' ≤ c && c ≤ 'f') || ('A' ≤ c && c ≤ 'F')

/-- Value of a hexadecimal digit. -/
def hexVal (c : Char) : Nat :=
  if c.isDigit then c.toNat - 48
  else if 'a' ≤ c && c ≤ 'f' then c.toNat - 87
  else c.toNat - 55

/-- `str.strip('{}')`: drop leading and trailing brace characters. -/
def stripBraces (l : List Char) : List Char :=
  let isBrace := fun c => c == Char.ofNat 123 || c == Char.ofNat 125
  ((l.dropWhile isBrace).reverse.dropWhile isBrace).reverse

/-- Fuel-driven scanner for `stripPat`; the fuel (initially the list length)
bounds the number of scanning steps, each of which consumes at least one
character. -/
def stripPatAux (pat : List Char) : Nat → List Char → List Char
  | 0, l => l
  | _ + 1, [] => []
  | fuel + 1, c :: rest =>
    if pat.isPrefixOf (c :: rest) then stripPatAux pat fuel (rest.drop (pat.length - 1))
    else c :: stripPatAux pat fuel rest

/-- `str.replace(pat, "")`: delete every non-overlapping occurrence of
`pat`, scanning left to right (`pat` nonempty). -/
def stripPat (pat : List Char) (l : List Char) : List Char :=
  stripPatAux pat l.length l

/-- Model of Python `uuid.UUID(s)` (standard library): delete `urn:` and
`uuid:`, strip surrounding braces, drop hyphens, then require exactly 32
hexadecimal digits; raise `ValueError` (`none`) otherwise.  Returns the
128-bit value. -/
def parse_uuid (s : String) : Option Nat :=
  let t := stripPat "uuid:".data (stripPat "urn:".data s.data)
  let t := stripBraces t
  let t := t.filter (fun c => c != '-')
  if t.length = 32 && t.all isHexDigit then
    some (t.foldl (fun n c => n * 16 + hexVal c) 0)
  else none

/-- The derived per-request principal (`CurrentPrincipal`, main.py 113-116);
`id` is the 128-bit UUID value. -/
structure CurrentPrincipal where
  id : Nat
  username : String
  role : String
deriving DecidableEq, Repr

/-- What one call of an auth dependency can produce: a principal, a raised
`HTTPException`, or an exception that no handler catches (surfacing as an
internal server error rather than an auth outcome). -/
inductive AuthOutcome where
  | ok (p : CurrentPrincipal)
  | httpError (status : Nat) (detail : String)
  | uncaughtError (msg : String)
deriving DecidableEq, Repr

/-- `get_current_principal` (main.py 185-197).  `decoded` is the outcome of
`decode_access_token` (utils/auth.py 47-48), which returns the payload or
raises `JWTError`.  The handler's `try` catches only `JWTError` (mapped to
401 "Invalid or expired token"); a falsy `sub` or `username` raises
`HTTPException` 401 "Invalid token" (not a `JWTError`, so it propagates
unchanged); `UUID(sub)` on a non-UUID string raises `ValueError`, which
nothing catches. -/
def get_current_principal (decoded : Except JWTError TokenPayload) : AuthOutcome :=
  match decoded with
  | .error _ => .httpError 401 "Invalid or expired token"
  | .ok payload =>
    if falsy payload.sub || falsy payload.username then .httpError 401 "Invalid token"
    else
      match parse_uuid (payload.sub.getD "") with
      | none => .uncaughtError "ValueError: badly formed hexadecimal UUID string"
      | some uid => .ok ⟨uid, payload.username.getD "", payload.role.getD "user"⟩

/-! ## User rows, the private view guard, patch merging, deletion -/

/-- A `users` table row (the columns written by services/user_repo.py). -/
structure UserRow where
  username : Option String
  email : Option String
  phone : Option String
  birth_date : Option String
  avatar_url : Option String
deriving DecidableEq, Repr

/-- The private projection returned by `/users/{user_id}/private`
(`UserPrivate`). -/
structure UserPrivate where
  id : Nat
  username : Option String
  email : Option String
  phone : Option String
  birth_date : Option String
deriving DecidableEq, Repr

/-- `get_user_private` (main.py 416-439): the owner-or-admin guard runs
first; only past it is `repo_get_user` consulted.  The result pairs the
response with the number of persistence reads performed. -/
def get_user_private (principal : CurrentPrincipal) (user_id : Nat)
    (store : Nat → Option UserRow) : Except HTTPError UserPrivate × Nat :=
  if principal.id ≠ user_id ∧ principal.role ≠ "admin" then
    (.error ⟨403, "Not permitted to view this user"⟩, 0)
  else
    match store user_id with
    | none => (.error ⟨404, "User not found"⟩, 1)
    | some u => (.ok ⟨user_id, u.username, u.email, u.phone, u.birth_date⟩, 1)

/-- A `users_credentials` table row. -/
structure CredRow where
  password_hash : String
  is_admin : Bool
deriving DecidableEq, Repr

/-- The two tables touched by `delete_user`, keyed by user id. -/
structure Db where
  users : List (String × UserRow)
  users_credentials : List (String × CredRow)
deriving DecidableEq, Repr

/-- `delete_user` (services/user_repo.py 84-89), one transaction: delete the
user row (capturing the rowcount), delete the credentials row, return
`rowcount > 0`. -/
def delete_user (db : Db) (user_id : String) : Bool × Db :=
  let deleted := (db.users.filter (fun r => r.1 == user_id)).length
  (decide (0 < deleted),
   ⟨assocPop db.users user_id, assocPop db.users_credentials user_id⟩)

/-! ## Partial-update patches (services/user_repo.py 61-82,
services/address_repo.py 40-58)

A Pydantic patch model distinguishes, per field, unset / set-to-null /
set-to-value (`model_dump(exclude_unset=True)` keeps explicit nulls and drops
unset fields).  A field is `Option (Option String)`: `none` = absent from the
payload, `some none` = present with value null, `some (some v)` = present
with value `v`. -/

/-- `UserUpdate` (models/user.py 101-143): all fields optional; `addresses`
is part of the payload model but is not a `users` table column. -/
structure UserUpdate where
  username : Option (Option String)
  email : Option (Option String)
  phone : Option (Option String)
  birth_date : Option (Option String)
  avatar_url : Option (Option String)
  addresses : Option (Option (List AddressRead))
deriving DecidableEq, Repr

/-- The SET clause `update_user` builds (services/user_repo.py 66-71): one
`(column, value)` pair per patch-present column, iterating `username, email,
phone, birth_date, avatar_url` in order. -/
def user_patch_sets (p : UserUpdate) : List (String × Option String) :=
  (match p.username with | some v => [("username", v)] | none => []) ++
  (match p.email with | some v => [("email", v)] | none => []) ++
  (match p.phone with | some v => [("phone", v)] | none => []) ++
  (match p.birth_date with | some v => [("birth_date", v)] | none => []) ++
  (match p.avatar_url with | some v => [("avatar_url", v)] | none => [])

/-- Effect of `UPDATE users SET <sets> WHERE id = :id` on the matched row:
each named column receives its new value; unnamed columns keep theirs. -/
def applyUserSets (row : UserRow) (sets : List (String × Option String)) : UserRow :=
  sets.foldl
    (fun r kv =>
      if kv.1 = "username" then { r with username := kv.2 }
      else if kv.1 = "email" then { r with email := kv.2 }
      else if kv.1 = "phone" then { r with phone := kv.2 }
      else if kv.1 = "birth_date" then { r with birth_date := kv.2 }
      else if kv.1 = "avatar_url" then { r with avatar_url := kv.2 }
      else r)
    row

/-- Row-level effect of `update_user` (services/user_repo.py 61-82) on the
matched row (an empty SET list leaves the row as read). -/
def update_user_row (row : UserRow) (p : UserUpdate) : UserRow :=
  applyUserSets row (user_patch_sets p)

/-- An `addresses` table row (the columns written by
services/address_repo.py). -/
structure AddressRow where
  street : Option String
  city : Option String
  state : Option String
  postal_code : Option String
  country : Option String
deriving DecidableEq, Repr

/-- Modelled from the spec: `AddressUpdate` (models/address.py is not among
the sources) is the optional-field patch structure for an address, one
entry per column consumed by `update_address`. -/
structure AddressUpdate where
  street : Option (Option String)
  city : Option (Option String)
  state : Option (Option String)
  postal_code : Option (Option String)
  country : Option (Option String)
deriving DecidableEq, Repr

/-- The SET clause `update_address` builds (services/address_repo.py 45-50),
iterating `street, city, state, postal_code, country` in order. -/
def address_patch_sets (p : AddressUpdate) : List (String × Option String) :=
  (match p.street with | some v => [("street", v)] | none => []) ++
  (match p.city with | some v => [("city", v)] | none => []) ++
  (match p.state with | some v => [("state", v)] | none => []) ++
  (match p.postal_code with | some v => [("postal_code", v)] | none => []) ++
  (match p.country with | some v => [("country", v)] | none => [])

/-- Effect of `UPDATE addresses SET <sets> WHERE id = :id` on the matched
row. -/
def applyAddressSets (row : AddressRow) (sets : List (String × Option String)) : AddressRow :=
  sets.foldl
    (fun r kv =>
      if kv.1 = "street" then { r with street := kv.2 }
      else if kv.1 = "city" then { r with city := kv.2 }
      else if kv.1 = "state" then { r with state := kv.2 }
      else if kv.1 = "postal_code" then { r with postal_code := kv.2 }
      else if kv.1 = "country" then { r with country := kv.2 }
      else r)
    row

/-- Row-level effect of `update_address` (services/address_repo.py 40-58) on
the matched row. -/
def update_address_row (row : AddressRow) (p : AddressUpdate) : AddressRow :=
  applyAddressSets row (address_patch_sets p)

/-- The relation insertion-sorting by key must be antisymmetric on: keys
ordered and distinct. -/
def keyLT (a b : String × Option String) : Prop := keyLE a b ∧ a.1 ≠ b.1

/-! ## Concrete fixtures used in counterexamples and witnesses -/

/-- An address embedded in users' representations. -/
def addrA1 : AddressRead :=
  ⟨"a1", some "123 Main St", some "New York", some "NY", some "10001", some "USA"⟩

/-- A user embedding `addrA1`. -/
def userU1 : UserRead := ⟨"u1", "alice", "alice@example.com", none, none, [addrA1]⟩

/-- A second user embedding the same address. -/
def userU2 : UserRead := ⟨"u2", "bob", "bob@example.com", none, none, [addrA1]⟩

/-- A cache state in which both users (each embedding `addrA1`), the address
itself, and one collection page of each kind are cached. -/
def cacheBoth : CacheState :=
  ⟨[("u1", userU1), ("u2", userU2)], [("a1", addrA1)],
   [("pageU", [userU1, userU2])], [("pageA", [addrA1])]⟩

/-- A persistence read that finds `addrA1` under `"a1"` and nothing else. -/
def storeA1 : String → Option AddressRead :=
  fun sid => if sid = "a1" then some addrA1 else none

/-- A persistence read that finds nothing. -/
def storeNone : String → Option AddressRead := fun _ => none

/-- A Google claim set with a non-Google issuer but matching audience and a
verified email. -/
def googleInfoEvil : GoogleTokenInfo :=
  ⟨"https://evil.example", "sub-1", "client-123", "mallory@evil.example",
   .bool true, none, none, 1, 2⟩

/-- A Google claim set whose `email_verified` is the string `"false"`. -/
def googleInfoUnverified : GoogleTokenInfo :=
  ⟨"https://accounts.google.com", "sub-2", "client-123", "carol@example.com",
   .str "false", none, none, 1, 2⟩

/-- A decoded payload with a valid `sub` but no `username`. -/
def payloadNoUsername : TokenPayload :=
  ⟨some "550e8400-e29b-41d4-a716-446655440000", none, none⟩

/-- A decoded payload whose `sub` is not a UUID. -/
def payloadBadSub : TokenPayload := ⟨some "not-a-uuid", some "alice", none⟩

/-! ## Helper lemmas -/

theorem lexLeB_total (x y : List Nat) : lexLeB x y = true ∨ lexLeB y x = true := by
  induction x generalizing y with
  | nil => exact Or.inl rfl
  | cons a as ih =>
    cases y with
    | nil => exact Or.inr rfl
    | cons b bs =>
      simp only [lexLeB, Bool.or_eq_true, decide_eq_true_eq, Bool.and_eq_true, beq_iff_eq]
      rcases Nat.lt_trichotomy a b with h | h | h
      · exact Or.inl (Or.inl h)
      · subst h
        rcases ih bs with h2 | h2
        · exact Or.inl (Or.inr ⟨rfl, h2⟩)
        · exact Or.inr (Or.inr ⟨rfl, h2⟩)
      · exact Or.inr (Or.inl h)

theorem lexLeB_trans (x y z : List Nat) (h1 : lexLeB x y = true) (h2 : lexLeB y z = true) :
    lexLeB x z = true := by
  induction x generalizing y z with
  | nil => rfl
  | cons a as ih =>
    cases y with
    | nil => simp [lexLeB] at h1
    | cons b bs =>
      cases z with
      | nil => simp [lexLeB] at h2
      | cons c cs =>
        simp only [lexLeB, Bool.or_eq_true, decide_eq_true_eq, Bool.and_eq_true,
          beq_iff_eq] at h1 h2 ⊢
        rcases h1 with h1 | ⟨rfl, h1⟩
        · rcases h2 with h2 | ⟨rfl, h2⟩
          · exact Or.inl (Nat.lt_trans h1 h2)
          · exact Or.inl h1
        · rcases h2 with h2 | ⟨rfl, h2⟩
          · exact Or.inl h2
          · exact Or.inr ⟨rfl, ih bs cs h1 h2⟩

theorem lexLeB_antisymm (x y : List Nat) (h1 : lexLeB x y = true) (h2 : lexLeB y x = true) :
    x = y := by
  induction x generalizing y with
  | nil =>
    cases y with
    | nil => rfl
    | cons b bs => simp [lexLeB] at h2
  | cons a as ih =>
    cases y with
    | nil => simp [lexLeB] at h1
    | cons b bs =>
      simp only [lexLeB, Bool.or_eq_true, decide_eq_true_eq, Bool.and_eq_true,
        beq_iff_eq] at h1 h2
      rcases h1 with h1 | ⟨rfl, h1⟩
      · rcases h2 with h2 | ⟨e, _⟩
        · exact absurd h2 (Nat.lt_asymm h1)
        · exact absurd (e ▸ h1) (Nat.lt_irrefl _)
      · rcases h2 with h2 | ⟨_, h2⟩
        · exact absurd h2 (Nat.lt_irrefl _)
        · rw [ih bs h1 h2]

theorem char_toNat_inj {a b : Char} (h : a.toNat = b.toNat) : a = b := by
  rw [← Char.ofNat_toNat a, ← Char.ofNat_toNat b, h]

theorem codes_inj {s t : String} (h : codes s = codes t) : s = t := by
  have hmap : ∀ l m : List Char, l.map Char.toNat = m.map Char.toNat → l = m := by
    intro l
    induction l with
    | nil => intro m hm; cases m with
      | nil => rfl
      | cons d ds => simp at hm
    | cons c cs ih =>
      intro m hm
      cases m with
      | nil => simp at hm
      | cons d ds =>
        simp only [List.map_cons, List.cons.injEq] at hm
        rw [char_toNat_inj hm.1, ih ds hm.2]
  have hd : s.data = t.data := hmap _ _ h
  cases s; cases t; exact congrArg String.mk hd

theorem sortKeys_perm_eq {l1 l2 : List (String × Option String)}
    (h : l1.Perm l2) (hnd : (l1.map Prod.fst).Nodup) :
    l1.insertionSort keyLE = l2.insertionSort keyLE := by
  haveI : IsTotal (String × Option String) keyLE := ⟨fun a b => lexLeB_total _ _⟩
  haveI : IsTrans (String × Option String) keyLE := ⟨fun a b c => lexLeB_trans _ _ _⟩
  haveI : IsAntisymm (String × Option String) keyLT :=
    ⟨fun a b hab hba =>
      absurd (codes_inj (lexLeB_antisymm _ _ hab.1 hba.1)) hab.2⟩
  have hnd2 : (l2.map Prod.fst).Nodup := ((h.map Prod.fst).nodup_iff).mp hnd
  have hp1 : l1.Pairwise (fun a b => a.1 ≠ b.1) := List.pairwise_map.mp hnd
  have hp2 : l2.Pairwise (fun a b => a.1 ≠ b.1) := List.pairwise_map.mp hnd2
  have hq1 : (l1.insertionSort keyLE).Pairwise (fun a b => a.1 ≠ b.1) :=
    hp1.perm (List.perm_insertionSort keyLE l1).symm (fun hab => Ne.symm hab)
  have hq2 : (l2.insertionSort keyLE).Pairwise (fun a b => a.1 ≠ b.1) :=
    hp2.perm (List.perm_insertionSort keyLE l2).symm (fun hab => Ne.symm hab)
  have hs1 : (l1.insertionSort keyLE).Pairwise keyLE := List.sorted_insertionSort keyLE l1
  have hs2 : (l2.insertionSort keyLE).Pairwise keyLE := List.sorted_insertionSort keyLE l2
  have hperm : (l1.insertionSort keyLE).Perm (l2.insertionSort keyLE) :=
    (List.perm_insertionSort keyLE l1).trans (h.trans (List.perm_insertionSort keyLE l2).symm)
  exact List.eq_of_perm_of_sorted (r := keyLT) hperm (hs1.and hq1) (hs2.and hq2)

theorem assocGet_pop_self {α : Type} (c : List (String × α)) (k : String) :
    assocGet (assocPop c k) k = none := by
  induction c with
  | nil => rfl
  | cons p c ih =>
    by_cases h : p.1 = k
    · simpa [assocPop, List.filter_cons, h] using ih
    · simp only [assocPop, List.filter_cons] at ih ⊢
      simp [assocGet, List.find?_cons, h]

theorem assocGet_pop_ne {α : Type} (c : List (String × α)) (k k' : String) (h : k' ≠ k) :
    assocGet (assocPop c k) k' = assocGet c k' := by
  induction c with
  | nil => rfl
  | cons p c ih =>
    by_cases h1 : p.1 = k
    · subst h1
      simpa [assocPop, assocGet, List.filter_cons, List.find?_cons, Ne.symm h] using ih
    · by_cases h2 : p.1 = k'
      · subst h2
        simp [assocPop, assocGet, List.filter_cons, List.find?_cons, h1]
      · simpa [assocPop, assocGet, List.filter_cons, List.find?_cons, h1, h2] using ih

theorem assocGet_put_self {α : Type} (c : List (String × α)) (k : String) (v : α) :
    assocGet (assocPut c k v) k = some v := by
  simp [assocPut, assocGet, List.find?_cons]

theorem filter_key_length_pos_iff {α : Type} (c : List (String × α)) (k : String) :
    0 < (c.filter (fun r => r.1 == k)).length ↔ assocGet c k ≠ none := by
  induction c with
  | nil => simp [assocGet]
  | cons p c ih =>
    by_cases h : p.1 = k
    · simp [assocGet, List.filter_cons, List.find?_cons, h]
    · simpa [assocGet, List.filter_cons, List.find?_cons, h] using ih

/-! ## Claim C1 -/

/-- C1 counterexample: in a cache state where two users embedding address
`a1` are cached, running the address-mutation invalidation
(`invalidate_address`, as called by the create/update/delete address
handlers) leaves both users' single-item cache entries present (the next
read hits instead of missing) and leaves the user collection cache
untouched, so the claimed cross-entity eviction does not happen. -/
theorem invalidate_address_user_cache_untouched_cex :
    assocGet (invalidate_address cacheBoth "a1").user_cache "u1" = some userU1 ∧
    assocGet (invalidate_address cacheBoth "a1").user_cache "u2" = some userU2 ∧
    (invalidate_address cacheBoth "a1").user_list_cache = [("pageU", [userU1, userU2])] := by
  refine ⟨rfl, rfl, rfl⟩

/-- C1 amended: for every address mutation (create, update, delete), the
invalidation step run before the handler returns evicts that address's
single-item slot and clears all address collection caches, but touches
neither the user single-item cache nor the user collection cache: both are
left exactly as they were, so users' cached representations that embed the
address keep hitting until their own invalidation or TTL expiry. -/
theorem address_mutation_invalidation_scope (s : CacheState) (aid : String) (a : AddressRead) :
    (update_address (some a) aid s).2 = invalidate_address s aid ∧
    (delete_address true aid s).2 = invalidate_address s aid ∧
    (create_address a s).2 = invalidate_address s a.id ∧
    assocGet (invalidate_address s aid).address_cache aid = none ∧
    (invalidate_address s aid).address_list_cache = [] ∧
    (invalidate_address s aid).user_cache = s.user_cache ∧
    (invalidate_address s aid).user_list_cache = s.user_list_cache := by
  refine ⟨rfl, rfl, rfl, assocGet_pop_self _ _, rfl, rfl, rfl⟩

/-! ## Claim C2 -/

/-- C2 counterexample: the filter map binding `country` to null and the
filter map omitting `country` entirely serialize to different blobs and hash
to different cache keys, contradicting the claimed canonicalization of
null-valued versus omitted filters. -/
theorem filters_key_null_vs_omitted_cex :
    filters_key [("city", some "NY"), ("country", none)] 50 0 ≠
    filters_key [("city", some "NY")] 50 0 := by decide

/-- C2 amended: the collection cache key is canonical over construction
order — any two filter maps with the same key-value bindings (keys distinct,
in any order) produce the same key, by the sorted-key serialization — but a
filter map binding a field to null and one omitting the field produce
different keys. -/
theorem filters_key_order_canonical :
    (∀ (l1 l2 : List (String × Option String)) (limit offset : Nat),
        l1.Perm l2 → (l1.map Prod.fst).Nodup →
        filters_key l1 limit offset = filters_key l2 limit offset) ∧
    filters_key [("city", some "NY"), ("country", none)] 50 0 ≠
      filters_key [("city", some "NY")] 50 0 := by
  constructor
  · intro l1 l2 limit offset h hnd
    have hs : l1.insertionSort keyLE = l2.insertionSort keyLE := sortKeys_perm_eq h hnd
    simp [filters_key, filtersBlob, dumpFilters, hs]
  · decide

/-- C2 witness: the order-canonicalization theorem applied to a concrete
reordered pair of filter maps. -/
theorem filters_key_order_canonical_w :
    filters_key [("country", some "US"), ("city", some "NY")] 50 0 =
    filters_key [("city", some "NY"), ("country", some "US")] 50 0 :=
  filters_key_order_canonical.1 _ _ 50 0 (List.Perm.swap _ _ _) (by decide)

/-! ## Claim C3 -/

/-- C3 counterexample: a claim set whose issuer is neither Google issuer but
whose audience matches the configured client id and whose email is verified
passes `verify_google_id_token` — the issuer is never checked, so
verification does not succeed "only if the issuer matches the expected
provider". -/
theorem verify_google_ignores_issuer_cex :
    verify_google_id_token "client-123" 200 googleInfoEvil = .ok googleInfoEvil ∧
    googleInfoEvil.iss ≠ "accounts.google.com" ∧
    googleInfoEvil.iss ≠ "https://accounts.google.com" := by
  refine ⟨rfl, by decide, by decide⟩

/-- C3 amended: verification succeeds exactly when a client id is
configured, the tokeninfo endpoint answered 200, the audience matches the
registered client id, and `email_verified` is truthy — the issuer claim is
not checked.  Audience and email violations are hard rejections (errors),
and a federated login whose assertion has `email_verified` false is rejected
with 401 and creates no account. -/
theorem google_verify_and_login_spec (cid : String) (status : Nat)
    (data : GoogleTokenInfo) (known : Bool) :
    (verify_google_id_token cid status data = .ok data ↔
      cid ≠ "" ∧ status = 200 ∧ data.aud = cid ∧
        truthy_email_verified data.email_verified = true) ∧
    (∀ out, verify_google_id_token cid status data = .ok out → out = data) ∧
    (truthy_email_verified data.email_verified = false →
      (∃ msg, verify_google_id_token cid status data = .error msg) ∧
      google_login cid status data known =
        ⟨.error ⟨401, "Invalid Google token"⟩, false⟩) := by
  unfold verify_google_id_token google_login
  split_ifs with h1 h2 h3 h4 <;> simp_all [verify_google_id_token]

/-- C3 witness: a federated login whose `email_verified` claim is the string
`"false"` is rejected with 401 and provisions no account. -/
theorem google_verify_and_login_spec_w :
    google_login "client-123" 200 googleInfoUnverified false =
      ⟨.error ⟨401, "Invalid Google token"⟩, false⟩ :=
  ((google_verify_and_login_spec "client-123" 200 googleInfoUnverified false).2.2
    (by decide)).2

/-! ## Claim C4 -/

/-- C4 counterexample: on the malformed hash string `"nothash"`,
`verify_password` does not return false — it propagates passlib's
`ValueError` (no exception handling in utils/auth.py 17-18). -/
theorem verify_password_malformed_cex :
    verify_password (fun _ _ => false) "pw" "nothash" ≠ .ok false ∧
    verify_password (fun _ _ => false) "pw" "nothash" =
      .error "ValueError: not a valid bcrypt_sha256 hash" := by
  constructor
  · intro h
    rw [show verify_password (fun _ _ => false) "pw" "nothash" =
        Except.error "ValueError: not a valid bcrypt_sha256 hash" from rfl] at h
    exact Except.noConfusion h
  · rfl

/-- C4 amended: for a well-formed `$bcrypt-sha256$` hash string,
`verify_password` returns the library's boolean comparison outcome; for a
malformed hash string it raises `ValueError` (the exception propagates)
rather than returning false. -/
theorem verify_password_malformed_raises (check : String → String → Bool)
    (plain hashed : String) :
    (strStartsWith hashed "$bcrypt-sha256$" = true →
      verify_password check plain hashed = .ok (check plain hashed)) ∧
    (strStartsWith hashed "$bcrypt-sha256$" = false →
      verify_password check plain hashed =
        .error "ValueError: not a valid bcrypt_sha256 hash") := by
  constructor <;> intro h <;> simp [verify_password, bcrypt_sha256_verify, h]

/-- C4 witness: the theorem applied to a well-formed and a malformed hash
string. -/
theorem verify_password_malformed_raises_w :
    verify_password (fun _ _ => true) "pw" "$bcrypt-sha256$v=2,t=2b,r=12$salt$digest" =
      .ok true ∧
    verify_password (fun _ _ => true) "pw" "nothash" =
      .error "ValueError: not a valid bcrypt_sha256 hash" :=
  ⟨(verify_password_malformed_raises (fun _ _ => true) "pw"
      "$bcrypt-sha256$v=2,t=2b,r=12$salt$digest").1 (by decide),
   (verify_password_malformed_raises (fun _ _ => true) "pw" "nothash").2 (by decide)⟩

/-! ## Claim C5 -/

/-- C5 counterexample: two failing tokens produce distinguishable outcomes —
a `JWTError` (expired/bad signature/malformed) yields 401 "Invalid or
expired token" while a decodable payload missing `username` yields 401
"Invalid token" — and a decodable payload whose `sub` is not a UUID escapes
as an uncaught `ValueError` rather than any unauthenticated outcome. -/
theorem auth_failure_distinguishable_cex :
    get_current_principal (.error .expiredSignature) =
      .httpError 401 "Invalid or expired token" ∧
    get_current_principal (.ok payloadNoUsername) = .httpError 401 "Invalid token" ∧
    get_current_principal (.ok payloadNoUsername) ≠
      get_current_principal (.error .expiredSignature) ∧
    get_current_principal (.ok payloadBadSub) =
      .uncaughtError "ValueError: badly formed hexadecimal UUID string" := by
  refine ⟨rfl, by decide, by decide, by decide⟩

/-- C5 amended: every `JWTError` raised by token verification (expired, bad
signature, malformed, bad claims) collapses to the single outcome 401
"Invalid or expired token"; but a token that decodes with a missing or empty
`sub`/`username` produces a 401 with the different detail "Invalid token"
(distinguishable by the caller), and a decodable token whose `sub` is not a
valid UUID escapes as an uncaught `ValueError` instead of an unauthenticated
outcome. -/
theorem get_current_principal_failure_modes :
    (∀ e : JWTError, get_current_principal (.error e) =
        .httpError 401 "Invalid or expired token") ∧
    (∀ p : TokenPayload, (falsy p.sub || falsy p.username) = true →
        get_current_principal (.ok p) = .httpError 401 "Invalid token") ∧
    (∀ p : TokenPayload, (falsy p.sub || falsy p.username) = false →
        parse_uuid (p.sub.getD "") = none →
        get_current_principal (.ok p) =
          .uncaughtError "ValueError: badly formed hexadecimal UUID string") := by
  refine ⟨fun e => rfl, fun p h => by simp [get_current_principal, h],
    fun p h1 h2 => by simp [get_current_principal, h1, h2]⟩

/-- C5 witness: the theorem applied to an expired token, a payload missing
`username`, and a payload with a non-UUID `sub`. -/
theorem get_current_principal_failure_modes_w :
    get_current_principal (.error .expiredSignature) =
      .httpError 401 "Invalid or expired token" ∧
    get_current_principal (.ok ⟨none, some "alice", none⟩) =
      .httpError 401 "Invalid token" ∧
    get_current_principal (.ok payloadBadSub) =
      .uncaughtError "ValueError: badly formed hexadecimal UUID string" :=
  ⟨get_current_principal_failure_modes.1 .expiredSignature,
   get_current_principal_failure_modes.2.1 ⟨none, some "alice", none⟩ (by decide),
   get_current_principal_failure_modes.2.2 payloadBadSub (by decide) (by decide)⟩

/-! ## Claim C6 -/

/-- C6 counterexample: for a key absent from the persistence store, two
immediately successive reads each invoke the loader (the 404 outcome is not
cached), so the loader runs twice, not at most once. -/
theorem read_through_absent_double_load_cex :
    (get_address storeNone [] "a1").2.2 = 1 ∧
    (get_address storeNone (get_address storeNone [] "a1").2.1 "a1").2.2 = 1 := by
  refine ⟨rfl, rfl⟩

/-- C6 amended: when the key is present in the backing store, two
immediately successive reads invoke the loader at most once and the second
read is served from the cache (zero loader calls); after the explicit
eviction performed by `invalidate_address`, the next read invokes the loader
again and repopulates the cache.  (When the key is absent, nothing is cached
and each read invokes the loader.) -/
theorem read_through_idempotent_on_found
    (store : String → Option AddressRead) (cache : List (String × AddressRead))
    (sid : String) (a : AddressRead) (h : store sid = some a) :
    ((get_address store cache sid).2.2 +
        (get_address store (get_address store cache sid).2.1 sid).2.2 ≤ 1) ∧
    (get_address store (get_address store cache sid).2.1 sid).2.2 = 0 ∧
    (∀ s : CacheState, (invalidate_address s sid).address_cache =
        assocPop s.address_cache sid) ∧
    (get_address store (assocPop (get_address store cache sid).2.1 sid) sid).2.2 = 1 ∧
    (get_address store (assocPop (get_address store cache sid).2.1 sid) sid).1 = .ok a ∧
    assocGet (get_address store
        (assocPop (get_address store cache sid).2.1 sid) sid).2.1 sid = some a := by
  cases hc : assocGet cache sid with
  | some v =>
    refine ⟨?_, ?_, fun s => rfl, ?_, ?_, ?_⟩ <;>
      simp [get_address, hc, h, assocGet_pop_self, assocGet_put_self]
  | none =>
    refine ⟨?_, ?_, fun s => rfl, ?_, ?_, ?_⟩ <;>
      simp [get_address, hc, h, assocGet_pop_self, assocGet_put_self]

/-- C6 witness: the theorem applied to the concrete store holding `addrA1`
under `"a1"` and an initially empty cache. -/
theorem read_through_idempotent_on_found_w :
    (get_address storeA1 [] "a1").2.2 +
      (get_address storeA1 (get_address storeA1 [] "a1").2.1 "a1").2.2 ≤ 1 :=
  (read_through_idempotent_on_found storeA1 [] "a1" addrA1 (by decide)).1

/-! ## Claim C7 -/

theorem user_merge_rule (row : UserRow) (p : UserUpdate) :
    (update_user_row row p).username = p.username.getD row.username ∧
    (update_user_row row p).email = p.email.getD row.email ∧
    (update_user_row row p).phone = p.phone.getD row.phone ∧
    (update_user_row row p).birth_date = p.birth_date.getD row.birth_date ∧
    (update_user_row row p).avatar_url = p.avatar_url.getD row.avatar_url := by
  obtain ⟨u, e, ph, b, av, ad⟩ := p
  cases u <;> cases e <;> cases ph <;> cases b <;> cases av <;>
    simp [update_user_row, user_patch_sets, applyUserSets]

theorem address_merge_rule (row : AddressRow) (p : AddressUpdate) :
    (update_address_row row p).street = p.street.getD row.street ∧
    (update_address_row row p).city = p.city.getD row.city ∧
    (update_address_row row p).state = p.state.getD row.state ∧
    (update_address_row row p).postal_code = p.postal_code.getD row.postal_code ∧
    (update_address_row row p).country = p.country.getD row.country := by
  obtain ⟨st, ci, sa, pc, co⟩ := p
  cases st <;> cases ci <;> cases sa <;> cases pc <;> cases co <;>
    simp [update_address_row, address_patch_sets, applyAddressSets]

/-- C7: partial updates of users and addresses follow the stated merge rule.
For every stored column, the updated value is `patchField.getD oldValue`:
a field present in the patch with value null (`some none`) clears the
column, a field present with a value (`some (some v)`) sets it, and a field
absent from the patch (`none`) leaves the stored value unchanged — so
columns never named in the patch are never modified. -/
theorem patch_merge_rule (row : UserRow) (p : UserUpdate)
    (arow : AddressRow) (ap : AddressUpdate) :
    ((update_user_row row p).username = p.username.getD row.username ∧
     (update_user_row row p).email = p.email.getD row.email ∧
     (update_user_row row p).phone = p.phone.getD row.phone ∧
     (update_user_row row p).birth_date = p.birth_date.getD row.birth_date ∧
     (update_user_row row p).avatar_url = p.avatar_url.getD row.avatar_url) ∧
    ((update_address_row arow ap).street = ap.street.getD arow.street ∧
     (update_address_row arow ap).city = ap.city.getD arow.city ∧
     (update_address_row arow ap).state = ap.state.getD arow.state ∧
     (update_address_row arow ap).postal_code = ap.postal_code.getD arow.postal_code ∧
     (update_address_row arow ap).country = ap.country.getD arow.country) :=
  ⟨user_merge_rule row p, address_merge_rule arow ap⟩

/-! ## Claim C8 -/

/-- C8: the owner-or-admin guard on the private user view passes exactly
when the principal's id equals the target id or the principal's role is
admin; otherwise the handler rejects with 403, performs zero persistence
reads, and its outcome does not depend on the stored data at all. -/
theorem private_view_owner_or_admin_guard (principal : CurrentPrincipal) (uid : Nat)
    (store other : Nat → Option UserRow) :
    ((principal.id = uid ∨ principal.role = "admin") ↔
      (get_user_private principal uid store).1 ≠
        .error ⟨403, "Not permitted to view this user"⟩) ∧
    (¬(principal.id = uid ∨ principal.role = "admin") →
      get_user_private principal uid store =
        (.error ⟨403, "Not permitted to view this user"⟩, 0) ∧
      get_user_private principal uid store = get_user_private principal uid other) := by
  by_cases hpass : principal.id = uid ∨ principal.role = "admin"
  · have hg : ¬(principal.id ≠ uid ∧ principal.role ≠ "admin") := by tauto
    constructor
    · simp only [hpass, true_iff]
      cases hs : store uid <;> simp [get_user_private, hg, hs]
    · intro hc; exact absurd hpass hc
  · have hg : principal.id ≠ uid ∧ principal.role ≠ "admin" := by tauto
    constructor
    · simp [get_user_private, hg, hpass]
    · intro _; exact ⟨by simp [get_user_private, hg], by simp [get_user_private, hg]⟩

/-- C8 witness: a non-admin principal requesting another user's private view
is rejected with 403 and zero persistence reads. -/
theorem private_view_owner_or_admin_guard_w :
    get_user_private ⟨1, "alice", "user"⟩ 2 (fun _ => none) =
      (.error ⟨403, "Not permitted to view this user"⟩, 0) :=
  ((private_view_owner_or_admin_guard ⟨1, "alice", "user"⟩ 2 (fun _ => none)
      (fun _ => none)).2 (by decide)).1

/-! ## Claim C9 -/

/-- C9: a token that decodes successfully with a truthy `sub` that is a
valid UUID and a truthy `username`, but with no `role` claim at all, is
accepted and yields a principal whose role is `"user"`: the missing role is
silently defaulted (`payload.get("role", "user")`), not rejected. -/
theorem missing_role_defaults_to_user (s u : String) (uid : Nat)
    (hs : falsy (some s) = false) (hu : falsy (some u) = false)
    (hp : parse_uuid s = some uid) :
    get_current_principal (.ok ⟨some s, some u, none⟩) = .ok ⟨uid, u, "user"⟩ := by
  simp [get_current_principal, hs, hu, hp]

/-- C9 witness: the theorem applied to a concrete payload with a canonical
UUID `sub`, a `username`, and no `role` claim. -/
theorem missing_role_defaults_to_user_w :
    get_current_principal
        (.ok ⟨some "550e8400-e29b-41d4-a716-446655440000", some "alice", none⟩) =
      .ok ⟨0x550e8400e29b41d4a716446655440000, "alice", "user"⟩ :=
  missing_role_defaults_to_user "550e8400-e29b-41d4-a716-446655440000" "alice"
    0x550e8400e29b41d4a716446655440000 (by decide) (by decide) (by decide)

/-! ## Claim C10 -/

/-- C10: `delete_user` deletes the user row and that user's credentials row
in its single transaction, returns true exactly when a user row was actually
deleted, the return value does not depend on whether a credentials row
existed, and no other user's rows are affected in either table. -/
theorem delete_user_frame_spec (db : Db) (uid : String) :
    ((delete_user db uid).1 = true ↔ assocGet db.users uid ≠ none) ∧
    (∀ creds : List (String × CredRow),
        (delete_user ⟨db.users, creds⟩ uid).1 = (delete_user db uid).1) ∧
    (delete_user db uid).2.users = assocPop db.users uid ∧
    (delete_user db uid).2.users_credentials = assocPop db.users_credentials uid ∧
    assocGet (delete_user db uid).2.users uid = none ∧
    assocGet (delete_user db uid).2.users_credentials uid = none ∧
    (∀ k, k ≠ uid →
      assocGet (delete_user db uid).2.users k = assocGet db.users k ∧
      assocGet (delete_user db uid).2.users_credentials k = assocGet db.users_credentials k) := by
  refine ⟨?_, fun creds => rfl, rfl, rfl, assocGet_pop_self _ _, assocGet_pop_self _ _,
    fun k hk => ⟨assocGet_pop_ne _ _ _ hk, assocGet_pop_ne _ _ _ hk⟩⟩
  simpa [delete_user] using filter_key_length_pos_iff db.users uid

/-- C10 witness: deleting an existing user (with no credentials row) returns
true. -/
theorem delete_user_frame_spec_w :
    (delete_user ⟨[("u1", ⟨some "alice", some "alice@example.com", none, none, none⟩)], []⟩
        "u1").1 = true :=
  (delete_user_frame_spec
      ⟨[("u1", ⟨some "alice", some "alice@example.com", none, none, none⟩)], []⟩ "u1").1.mpr
    (by decide)

end Service
